import Mathlib

/-!
Verification of `depth_image_proc::PointCloudXyzlNodelet`
(src/depth_image_proc/src/nodelets/point_cloud_xyzl.cpp).

Shallow embedding conventions:
- Machine floating-point numerals (`float`, `double`) are modelled by exact
  rationals `ℚ`; rounding of individual float operations is abstracted away.
  The quiet-NaN sentinel written into invalid points is modelled by a
  dedicated constructor `RFloat.nan`, so "NaN vs finite" is explicit.
- An image buffer (`sensor_msgs::Image` reinterpreted through
  `reinterpret_cast` plus row-step pointer arithmetic) is modelled as a typed
  row-major grid accessor `data : Nat → Nat → α` together with its declared
  `width`, `height`, `encoding` string and header.
- Depth samples are rationals (covering both `uint16_t` raw values and
  `float` meters); label samples are integers (covering both `int32_t` and
  `uint8_t` pixel values).
- The C++ cast `uint32_t ← int32_t` performed by `*iter_l = label` preserves
  the two's-complement bit pattern, i.e. it is reduction modulo 2^32.
-/

namespace DepthImageProc

abbrev Q := ℚ

-- Encoding string constants from `sensor_msgs::image_encodings`.
namespace enc

def TYPE_16UC1 : String := "16UC1"

def TYPE_32FC1 : String := "32FC1"

def TYPE_32SC1 : String := "32SC1"

def TYPE_8UC1 : String := "8UC1"

def MONO8 : String := "mono8"

end enc

/-- Message header: timestamp and coordinate frame id. -/
structure Header where
  stamp : Nat
  frame_id : String
  deriving DecidableEq, Repr

/-- A typed image: row-major grid of samples of type `α` with declared
dimensions and encoding tag. `data r c` is the sample at row `r`, column `c`;
byte-level stride and `reinterpret_cast` are abstracted into this accessor. -/
structure Image (α : Type) where
  header : Header
  height : Nat
  width : Nat
  encoding : String
  data : Nat → Nat → α

/-- Camera calibration message (`sensor_msgs::CameraInfo`): the entries of
the intrinsic matrix `K` and projection matrix `P` that the nodelet touches.
`K0 K2 K4 K5` are `K[0],K[2],K[4],K[5]`; `P0 P2 P5 P6` are
`P[0],P[2],P[5],P[6]`. -/
structure CameraInfo where
  width : Nat
  height : Nat
  K0 : Q
  K2 : Q
  K4 : Q
  K5 : Q
  P0 : Q
  P2 : Q
  P5 : Q
  P6 : Q
  deriving DecidableEq, Repr

/-- The pinhole camera model state (`image_geometry::PinholeCameraModel`)
restricted to the accessors the nodelet uses: `fx(), fy(), cx(), cy()`. -/
structure Intrinsics where
  fx : Q
  fy : Q
  cx : Q
  cy : Q
  deriving DecidableEq, Repr

/-- Modelled from the spec: `PinholeCameraModel::fromCameraInfo` (external
collaborator, §6 calibration delivery contract). The model exposes
`fx = P[0]`, `fy = P[5]`, `cx = P[2]`, `cy = P[6]` of the projection
matrix. -/
def fromCameraInfo (info : CameraInfo) : Intrinsics :=
  { fx := info.P0, fy := info.P5, cx := info.P2, cy := info.P6 }

/-- A `float` cell of the output cloud: either the quiet-NaN sentinel or a
finite value (a rational in this model). -/
inductive RFloat where
  | nan : RFloat
  | fin : Q → RFloat
  deriving DecidableEq, Repr

/-- One output point: three float coordinates and the `uint32` label field. -/
structure Point where
  x : RFloat
  y : RFloat
  z : RFloat
  label : Nat
  deriving DecidableEq, Repr

def defaultPoint : Point := { x := .fin 0, y := .fin 0, z := .fin 0, label := 0 }

/-- Field descriptors: (name, count, datatype) with the `sensor_msgs::PointField`
datatype codes `FLOAT32 = 7`, `UINT32 = 6`. -/
def FLOAT32 : Nat := 7

def UINT32 : Nat := 6

/-- The fixed schema set by `setPointCloud2Fields(4, "x",…, "label",…)`. -/
def xyzlFields : List (String × Nat × Nat) :=
  [("x", 1, FLOAT32), ("y", 1, FLOAT32), ("z", 1, FLOAT32), ("label", 1, UINT32)]

/-- Output cloud (`sensor_msgs::PointCloud2`): header, dimensions, flags,
field schema, and the point grid written through the x/y/z/label iterators. -/
structure PointCloud where
  header : Header
  height : Nat
  width : Nat
  is_dense : Bool
  is_bigendian : Bool
  fields : List (String × Nat × Nat)
  points : Nat → Nat → Point

/-- Depth-unit trait interface (`depth_image_proc::DepthTraits<T>`): unit
conversion to meters and the validity predicate. -/
structure DepthTrait where
  toMeters : Q → Q
  valid : Q → Bool

/-- Modelled from the spec: `DepthTraits<uint16_t>` from
`depth_image_proc/depth_traits.h` (repository header not present under src/).
Raw integer units are millimeters, so `toMeters d = d / 1000`; the invalid
sentinel is 0, so `valid d ↔ d ≠ 0`. -/
def DepthTraitU16 : DepthTrait :=
  { toMeters := fun d => d / 1000, valid := fun d => d != 0 }

/-- Modelled from the spec: `DepthTraits<float>` from
`depth_image_proc/depth_traits.h` (repository header not present under src/).
Float samples are already meters, so `toMeters` is the identity; validity is
finiteness, which is always true for the finite rationals of this model. -/
def DepthTraitF32 : DepthTrait :=
  { toMeters := fun d => d, valid := fun _ => true }

/-- The C++ conversion `uint32_t ← T2` applied by `*iter_l = label`:
reduction modulo 2^32, preserving the two's-complement bit pattern. -/
def toU32 (l : Int) : Nat := (l % (2 ^ 32 : Int)).toNat

/-- The per-pixel body of `PointCloudXyzlNodelet::convert` (lines 295-311):
given the loop indices `v` (row) and `u` (column), the depth sample and the
label sample, produce the point written through the iterators.
`labelSigned` records whether the label type `T2` is `int32_t` (so that the
comparison `label < 0` is a signed comparison) or `uint8_t` (where `label < 0`
is identically false). The hoisted constants `unit_scaling`, `constant_x`,
`constant_y` are kept as in the source. -/
def convertPoint (trait : DepthTrait) (labelSigned : Bool) (m : Intrinsics)
    (v u : Nat) (depth : Q) (label : Int) : Point :=
  let center_x : Q := m.cx
  let center_y : Q := m.cy
  let unit_scaling : Q := trait.toMeters 1
  let constant_x : Q := unit_scaling / m.fx
  let constant_y : Q := unit_scaling / m.fy
  if !trait.valid depth || (labelSigned && decide (label < 0)) then
    { x := .nan, y := .nan, z := .nan, label := toU32 label }
  else
    { x := .fin (((u : Q) - center_x) * depth * constant_x)
      y := .fin (((v : Q) - center_y) * depth * constant_y)
      z := .fin (trait.toMeters depth)
      label := toU32 label }

/-- `PointCloudXyzlNodelet::convert<T, T2>` (lines 265-314): fill the point
grid of the pre-allocated cloud, reading depth and label at the same
row-major position for every `(v, u)` with `v < height`, `u < width`. -/
def convert (trait : DepthTrait) (labelSigned : Bool) (m : Intrinsics)
    (depth_msg : Image Q) (label_msg : Image Int) (cloud_msg : PointCloud) :
    PointCloud :=
  { cloud_msg with
    points := fun v u =>
      convertPoint trait labelSigned m v u (depth_msg.data v u) (label_msg.data v u) }

/-- The pixel grid produced by a successful nearest-neighbor resize: the
destination sample at `(v, u)` is the source sample at
`(min ⌊v·srcH/dstH⌋ (srcH-1), min ⌊u·srcW/dstW⌋ (srcW-1))`; header and
encoding are carried over from the source (`cv_rsz.header = cv_ptr->header`,
`cv_rsz.encoding = cv_ptr->encoding` in the nodelet). -/
def cvResizeNNData (src : Image Int) (dstW dstH : Nat) : Image Int :=
  { header := src.header
    height := dstH
    width := dstW
    encoding := src.encoding
    data := fun v u =>
      src.data (min (v * src.height / dstH) (src.height - 1))
               (min (u * src.width / dstW) (src.width - 1)) }

/-- Modelled from the spec: `cv::resize` with `cv::INTER_NEAREST` (external
OpenCV collaborator; §4.1 mandates nearest-neighbor resampling). The call
asserts that neither the source nor the destination area is empty; an empty
image throws a `cv::Exception`, modelled as `none`. -/
def cvResizeNN (src : Image Int) (dstW dstH : Nat) : Option (Image Int) :=
  if src.height = 0 ∨ src.width = 0 ∨ dstW = 0 ∨ dstH = 0 then
    none
  else
    some (cvResizeNNData src dstW dstH)

/-- `cv::Mat::rowRange(0, k)`: the view of the first `k` rows. The call
asserts `k ≤ rows` (`CV_Assert(0 <= start && start <= end && end <= rows)`);
a request past the end throws a `cv::Exception`, modelled as `none`. -/
def rowRange0 (img : Image Int) (k : Nat) : Option (Image Int) :=
  if k ≤ img.height then
    some { img with height := k }
  else
    none

/-- The row count cropped at line 195: `depth_msg->height / ratio` with
`ratio = Wd / Wl`, converted to `int` by truncation (floor, as the value is
non-negative). -/
def keptRows (depth_msg : Image Q) (label_msg : Image Int) : Nat :=
  (⌊(depth_msg.height : Q) /
      ((depth_msg.width : Q) / (label_msg.width : Q))⌋).toNat

/-- Modelled from the spec: which label encodings `cv_bridge` can convert to
`32SC1` (§4.2: "if that conversion is not supported for the declared input
format, fail"). Single-channel numeric encodings convert; anything else
makes `toCvCopy` throw. -/
def normalizableEncoding (e : String) : Bool :=
  e == enc.MONO8 || e == enc.TYPE_8UC1 || e == "8SC1" || e == enc.TYPE_16UC1 ||
  e == "16SC1" || e == enc.TYPE_32SC1 || e == enc.TYPE_32FC1 || e == "64FC1"

/-- The successful result of converting a label image to `32SC1`: same pixel
grid, encoding retagged. -/
def retag32SC1 (img : Image Int) : Image Int :=
  { img with encoding := enc.TYPE_32SC1 }

/-- Modelled from the spec: `cv_bridge::toCvCopy(msg, TYPE_32SC1)` followed by
`toImageMsg()` (external collaborator). On a convertible single-channel
encoding it yields the same pixel grid retagged `32SC1` (value-preserving for
in-range integer labels); on an unsupported encoding it throws, modelled as
`none`. -/
def toCvCopy32SC1 (img : Image Int) : Option (Image Int) :=
  if normalizableEncoding img.encoding then
    some (retag32SC1 img)
  else
    none

/-- Lines 164-204 of `imageCb`: the resolution-reconciliation block. Returns
the camera model left in `model_` and, when the OpenCV calls succeed, the
label image forwarded as `label_msg`. When the depth and label dimensions
differ: `ratio` is the width ratio `Wd / Wl` (floats modelled as exact
rationals), the `K` and `P` intrinsic entries are each scaled by `ratio`
and `model_` is updated (line 180) *before* the label image is cropped with
`rowRange(0, depth->height / ratio)` (C++ float-to-int truncation) and
resized with nearest-neighbor interpolation to `(Wd, Hd)`. The `try` block
of lines 183-191 covers only `toCvShare`; the `rowRange`/`resize` asserts
of lines 195-198 are outside it, so when the crop bound exceeds the label
height (height ratio larger than width ratio) or an area is empty, the
`cv::Exception` propagates uncaught out of the callback — modelled as
`none` in the second component (no label image is produced, nothing is
published). Otherwise `model_` keeps `fromCameraInfo(info_msg)` from line
162 and the label image passes through. `cv_bridge::toCvShare(msg,
msg->encoding)` reinterprets a well-typed image under its own declared
encoding, which in this typed model always succeeds and is the identity. -/
def reconcile (depth_msg : Image Q) (label_msg_in : Image Int)
    (info_msg : CameraInfo) : Intrinsics × Option (Image Int) :=
  if depth_msg.width ≠ label_msg_in.width ∨ depth_msg.height ≠ label_msg_in.height then
    let ratio : Q := (depth_msg.width : Q) / (label_msg_in.width : Q)
    let info_msg_tmp : CameraInfo :=
      { width := depth_msg.width
        height := depth_msg.height
        K0 := info_msg.K0 * ratio
        K2 := info_msg.K2 * ratio
        K4 := info_msg.K4 * ratio
        K5 := info_msg.K5 * ratio
        P0 := info_msg.P0 * ratio
        P2 := info_msg.P2 * ratio
        P5 := info_msg.P5 * ratio
        P6 := info_msg.P6 * ratio }
    let model := fromCameraInfo info_msg_tmp
    match rowRange0 label_msg_in (keptRows depth_msg label_msg_in) with
    | none => (model, none)
    | some cropped =>
      match cvResizeNN cropped depth_msg.width depth_msg.height with
      | none => (model, none)
      | some resized => (model, some resized)
  else
    (fromCameraInfo info_msg, some label_msg_in)

/-- Lines 206-218 of `imageCb`: the label-encoding normalization step, with
the guard condition exactly as written in the source:
`encoding != TYPE_32SC1 || encoding != TYPE_8UC1`. -/
def normalizeLabel (label_msg : Image Int) : Option (Image Int) :=
  if label_msg.encoding ≠ enc.TYPE_32SC1 ∨ label_msg.encoding ≠ enc.TYPE_8UC1 then
    toCvCopy32SC1 label_msg
  else
    some label_msg

/-- Lines 220-233 of `imageCb`: allocation of the output cloud. Header is
copied from the depth message ("Use depth image time stamp"), dimensions are
the depth dimensions, `is_dense` and `is_bigendian` are cleared, and the
fixed 4-field x/y/z/label schema is installed. -/
def allocCloud (depth_msg : Image Q) : PointCloud :=
  { header := depth_msg.header
    height := depth_msg.height
    width := depth_msg.width
    is_dense := false
    is_bigendian := false
    fields := xyzlFields
    points := fun _ _ => defaultPoint }

/-- `PointCloudXyzlNodelet::imageCb` (lines 149-263) as a transformer of the
nodelet's mutable member `model_` (the only cross-callback state the
callback touches): given the prior `model_` and a matched triple, return
the new `model_` together with the published cloud (`none` when the frame is
dropped or the uncaught reconciliation exception aborts the callback).
Mirrors the source order: frame-id guard, `model_` update and resolution
reconciliation, encoding normalization, cloud allocation, encoding dispatch
to `convert<T, T2>`, publish. -/
def imageCbSt (model0 : Intrinsics) (depth_msg : Image Q)
    (label_msg_in : Image Int) (info_msg : CameraInfo) :
    Intrinsics × Option PointCloud :=
  if depth_msg.header.frame_id ≠ label_msg_in.header.frame_id then
    (model0, none)
  else
    let model := (reconcile depth_msg label_msg_in info_msg).1
    match (reconcile depth_msg label_msg_in info_msg).2 with
    | none => (model, none)
    | some label_resized =>
    match normalizeLabel label_resized with
    | none => (model, none)
    | some label_msg =>
      if depth_msg.encoding = enc.TYPE_16UC1 ∧ label_msg.encoding = enc.TYPE_32SC1 then
        (model, some (convert DepthTraitU16 true model depth_msg label_msg (allocCloud depth_msg)))
      else if depth_msg.encoding = enc.TYPE_16UC1 ∧ label_msg.encoding = enc.MONO8 then
        (model, some (convert DepthTraitU16 false model depth_msg label_msg (allocCloud depth_msg)))
      else if depth_msg.encoding = enc.TYPE_32FC1 ∧ label_msg.encoding = enc.TYPE_32SC1 then
        (model, some (convert DepthTraitF32 true model depth_msg label_msg (allocCloud depth_msg)))
      else if depth_msg.encoding = enc.TYPE_32FC1 ∧ label_msg.encoding = enc.MONO8 then
        (model, some (convert DepthTraitF32 false model depth_msg label_msg (allocCloud depth_msg)))
      else
        (model, none)

/-- The published-cloud view of the callback, with the default-constructed
`PinholeCameraModel` as initial state (every execution overwrites it before
use, see the history-freeness theorem). -/
def imageCb (depth_msg : Image Q) (label_msg_in : Image Int)
    (info_msg : CameraInfo) : Option PointCloud :=
  (imageCbSt { fx := 0, fy := 0, cx := 0, cy := 0 } depth_msg label_msg_in info_msg).2

/-!
Concrete fixtures, used to witness the theorems below. `depthA`, `labelA`
and `infoA` follow Scenario A of the spec (4×3 constant-1000 millimeter
depth, constant label 7, `fx = fy = 100`, `cx = 2`, `cy = 3/2`); the depth
and label stamps deliberately differ so that the header provenance of the
output is observable. `depthB`/`labelB` have mismatched resolutions
(ratio 2). `labelNegA` carries the signed label −1; `label8A` is an 8-bit
label image.
-/

def depthA : Image Q :=
  { header := { stamp := 100, frame_id := "cam" }, height := 3, width := 4,
    encoding := enc.TYPE_16UC1, data := fun _ _ => 1000 }

def labelA : Image Int :=
  { header := { stamp := 101, frame_id := "cam" }, height := 3, width := 4,
    encoding := enc.TYPE_32SC1, data := fun _ _ => 7 }

def labelNegA : Image Int :=
  { header := { stamp := 101, frame_id := "cam" }, height := 3, width := 4,
    encoding := enc.TYPE_32SC1, data := fun _ _ => -1 }

def label8A : Image Int :=
  { header := { stamp := 101, frame_id := "cam" }, height := 3, width := 4,
    encoding := enc.TYPE_8UC1, data := fun _ _ => 7 }

def infoA : CameraInfo :=
  { width := 4, height := 3, K0 := 100, K2 := 2, K4 := 100, K5 := 3/2,
    P0 := 100, P2 := 2, P5 := 100, P6 := 3/2 }

/-- The reconciled intrinsics of the equal-resolution Scenario A triple. -/
def mA : Intrinsics := fromCameraInfo infoA

def depthB : Image Q :=
  { header := { stamp := 200, frame_id := "cam" }, height := 2, width := 4,
    encoding := enc.TYPE_16UC1, data := fun _ _ => 500 }

def labelB : Image Int :=
  { header := { stamp := 201, frame_id := "cam" }, height := 1, width := 2,
    encoding := enc.TYPE_32SC1, data := fun v u => (v : Int) * 10 + (u : Int) }

/-- A depth image in a different coordinate frame than `labelA`. -/
def depthBad : Image Q :=
  { header := { stamp := 100, frame_id := "world" }, height := 3, width := 4,
    encoding := enc.TYPE_16UC1, data := fun _ _ => 1000 }

/-- A 4×6 depth image: same width as `labelC` but twice its height, so the
differing-dims branch runs with `ratio = 1` and asks `rowRange` for 6 of 3
rows — the uncaught `cv::Exception` input. -/
def depthC : Image Q :=
  { header := { stamp := 300, frame_id := "cam" }, height := 6, width := 4,
    encoding := enc.TYPE_16UC1, data := fun _ _ => 1000 }

/-- A 4×3 label image paired with `depthC`. -/
def labelC : Image Int :=
  { header := { stamp := 301, frame_id := "cam" }, height := 3, width := 4,
    encoding := enc.TYPE_32SC1, data := fun _ _ => 7 }

/-- A throwaway cloud value for `Option.getD`. -/
def arbCloud : PointCloud :=
  { header := { stamp := 0, frame_id := "" }, height := 0, width := 0,
    is_dense := false, is_bigendian := false, fields := [],
    points := fun _ _ => defaultPoint }

/-- The cloud the nodelet publishes for the Scenario A triple. -/
def cloudA : PointCloud := (imageCb depthA labelA infoA).getD arbCloud

/-!
Helper lemmas (shared across the claim theorems below).
-/

/-- On a valid depth sample and non-negative label, `convertPoint` takes the
projection branch, with the constants exactly as hoisted in the source. -/
theorem convertPoint_valid (trait : DepthTrait) (labelSigned : Bool)
    (m : Intrinsics) (v u : Nat) (d : Q) (l : Int)
    (hvalid : trait.valid d = true) (hlabel : 0 ≤ l) :
    convertPoint trait labelSigned m v u d l =
      { x := .fin (((u : Q) - m.cx) * d * (trait.toMeters 1 / m.fx))
        y := .fin (((v : Q) - m.cy) * d * (trait.toMeters 1 / m.fy))
        z := .fin (trait.toMeters d)
        label := toU32 l } := by
  unfold convertPoint
  have h1 : decide (l < 0) = false := decide_eq_false (not_lt.mpr hlabel)
  simp [hvalid, h1]

/-- `convertPoint` always takes one of its two branches: the NaN branch or
the projection branch, and both write the cast label. -/
theorem convertPoint_cases (trait : DepthTrait) (labelSigned : Bool)
    (m : Intrinsics) (v u : Nat) (d : Q) (l : Int) :
    convertPoint trait labelSigned m v u d l =
      { x := .nan, y := .nan, z := .nan, label := toU32 l } ∨
    convertPoint trait labelSigned m v u d l =
      { x := .fin (((u : Q) - m.cx) * d * (trait.toMeters 1 / m.fx))
        y := .fin (((v : Q) - m.cy) * d * (trait.toMeters 1 / m.fy))
        z := .fin (trait.toMeters d)
        label := toU32 l } := by
  unfold convertPoint
  cases hb : (!trait.valid d || (labelSigned && decide (l < 0)))
  · right
    simp
  · left
    simp

/-- The point grid written by `convert` at `(v, u)`. -/
theorem convert_points (trait : DepthTrait) (labelSigned : Bool)
    (m : Intrinsics) (depth_msg : Image Q) (label_msg : Image Int)
    (cloud_msg : PointCloud) (v u : Nat) :
    (convert trait labelSigned m depth_msg label_msg cloud_msg).points v u =
      convertPoint trait labelSigned m v u (depth_msg.data v u)
        (label_msg.data v u) := rfl

/--
C1: for every pixel of a matched triple where the depth sample is valid and
the label value is non-negative, the output point satisfies
`z = toMeters(rawDepth)` exactly, `x = (col − cx)·z / fx` and
`y = (row − cy)·z / fy`, using the reconciled intrinsics `m`. Machine floats
are modelled as exact rationals, so the 1e-5 tolerance of the spec is met
with exact equality. The hypothesis `hlin` records that the depth-unit
trait's `toMeters` is linear, which holds for both traits of
`depth_traits.h` (identity for float meters, division by 1000 for raw
millimeter counts).
-/
theorem convert_projection_formula (trait : DepthTrait) (labelSigned : Bool)
    (m : Intrinsics) (depth_msg : Image Q) (label_msg : Image Int)
    (cloud_msg : PointCloud) (v u : Nat)
    (hlin : ∀ d : Q, trait.toMeters d = d * trait.toMeters 1)
    (hvalid : trait.valid (depth_msg.data v u) = true)
    (hlabel : 0 ≤ label_msg.data v u) :
    ((convert trait labelSigned m depth_msg label_msg cloud_msg).points v u).z
        = .fin (trait.toMeters (depth_msg.data v u)) ∧
    ((convert trait labelSigned m depth_msg label_msg cloud_msg).points v u).x
        = .fin (((u : Q) - m.cx) * trait.toMeters (depth_msg.data v u) / m.fx) ∧
    ((convert trait labelSigned m depth_msg label_msg cloud_msg).points v u).y
        = .fin (((v : Q) - m.cy) * trait.toMeters (depth_msg.data v u) / m.fy) := by
  rw [convert_points, convertPoint_valid trait labelSigned m v u _ _ hvalid hlabel]
  refine ⟨rfl, ?_, ?_⟩
  · show RFloat.fin (((u : Q) - m.cx) * depth_msg.data v u * (trait.toMeters 1 / m.fx)) = _
    rw [hlin (depth_msg.data v u)]
    congr 1
    ring
  · show RFloat.fin (((v : Q) - m.cy) * depth_msg.data v u * (trait.toMeters 1 / m.fy)) = _
    rw [hlin (depth_msg.data v u)]
    congr 1
    ring

/--
C1 witness: Scenario A pixel (0, 1) with the millimeter trait: depth 1000,
label 7, reconciled intrinsics `fx = fy = 100`, `cx = 2`, `cy = 3/2`.
-/
theorem convert_projection_formula_witness :
    DepthTraitU16.valid (depthA.data 0 1) = true ∧
    (0 : Int) ≤ labelA.data 0 1 ∧
    (((convert DepthTraitU16 true mA depthA labelA arbCloud).points 0 1).z
        = .fin (DepthTraitU16.toMeters (depthA.data 0 1)) ∧
     ((convert DepthTraitU16 true mA depthA labelA arbCloud).points 0 1).x
        = .fin (((1 : Q) - mA.cx) * DepthTraitU16.toMeters (depthA.data 0 1) / mA.fx) ∧
     ((convert DepthTraitU16 true mA depthA labelA arbCloud).points 0 1).y
        = .fin (((0 : Q) - mA.cy) * DepthTraitU16.toMeters (depthA.data 0 1) / mA.fy)) :=
  ⟨rfl, by decide,
   convert_projection_formula DepthTraitU16 true mA depthA labelA arbCloud 0 1
     (fun d => by show d / 1000 = d * ((1 : Q) / 1000); ring) rfl (by decide)⟩

/--
C2: for every pixel where the depth sample is invalid, or the label value is
negative (possible only for the signed `int32_t` label type), the output
point's x, y, z are all NaN, and the label field is still written with the
input label value verbatim — reduced modulo 2^32, i.e. the two's-complement
bit pattern — never replaced by a sentinel.
-/
theorem convert_invalid_nan (trait : DepthTrait) (labelSigned : Bool)
    (m : Intrinsics) (depth_msg : Image Q) (label_msg : Image Int)
    (cloud_msg : PointCloud) (v u : Nat)
    (h : trait.valid (depth_msg.data v u) = false ∨
         (labelSigned = true ∧ label_msg.data v u < 0)) :
    ((convert trait labelSigned m depth_msg label_msg cloud_msg).points v u).x = .nan ∧
    ((convert trait labelSigned m depth_msg label_msg cloud_msg).points v u).y = .nan ∧
    ((convert trait labelSigned m depth_msg label_msg cloud_msg).points v u).z = .nan ∧
    ((convert trait labelSigned m depth_msg label_msg cloud_msg).points v u).label
        = toU32 (label_msg.data v u) := by
  rw [convert_points]
  unfold convertPoint
  rcases h with hv | ⟨hs, hl⟩
  · simp [hv]
  · simp [hs, hl]

/--
C2 witness: Scenario B pixel: valid depth 1000 but label −1 → NaN geometry,
label bit pattern 2^32 − 1 = 4294967295.
-/
theorem convert_invalid_nan_witness :
    (labelNegA.data 0 0 < 0) ∧
    (((convert DepthTraitU16 true mA depthA labelNegA arbCloud).points 0 0).x = .nan ∧
     ((convert DepthTraitU16 true mA depthA labelNegA arbCloud).points 0 0).y = .nan ∧
     ((convert DepthTraitU16 true mA depthA labelNegA arbCloud).points 0 0).z = .nan ∧
     ((convert DepthTraitU16 true mA depthA labelNegA arbCloud).points 0 0).label
        = toU32 (labelNegA.data 0 0)) ∧
    toU32 (labelNegA.data 0 0) = 4294967295 :=
  ⟨by decide,
   convert_invalid_nan DepthTraitU16 true mA depthA labelNegA arbCloud 0 0
     (Or.inr ⟨rfl, by decide⟩),
   by decide⟩

/--
C8: for every point of the written grid, x, y and z are either all three NaN
or all three finite (given nonzero intrinsics; in this exact-rational model
finite values are the `RFloat.fin` constructor), and the label field is
always written with the cast input label — no point has valid geometry with
an unwritten or substituted label.
-/
theorem convert_geometry_all_or_nothing (trait : DepthTrait) (labelSigned : Bool)
    (m : Intrinsics) (depth_msg : Image Q) (label_msg : Image Int)
    (cloud_msg : PointCloud) (v u : Nat)
    (hfx : m.fx ≠ 0) (hfy : m.fy ≠ 0) :
    (((convert trait labelSigned m depth_msg label_msg cloud_msg).points v u).x = .nan ∧
     ((convert trait labelSigned m depth_msg label_msg cloud_msg).points v u).y = .nan ∧
     ((convert trait labelSigned m depth_msg label_msg cloud_msg).points v u).z = .nan ∨
     ∃ a b c : Q,
       ((convert trait labelSigned m depth_msg label_msg cloud_msg).points v u).x = .fin a ∧
       ((convert trait labelSigned m depth_msg label_msg cloud_msg).points v u).y = .fin b ∧
       ((convert trait labelSigned m depth_msg label_msg cloud_msg).points v u).z = .fin c) ∧
    ((convert trait labelSigned m depth_msg label_msg cloud_msg).points v u).label
        = toU32 (label_msg.data v u) := by
  rcases convertPoint_cases trait labelSigned m v u (depth_msg.data v u)
      (label_msg.data v u) with h | h <;> rw [convert_points, h]
  · exact ⟨Or.inl ⟨rfl, rfl, rfl⟩, rfl⟩
  · exact ⟨Or.inr ⟨_, _, _, rfl, rfl, rfl⟩, rfl⟩

/--
C8 witness: the Scenario A triple at pixel (1, 2) with nonzero intrinsics.
-/
theorem convert_geometry_all_or_nothing_witness :
    mA.fx ≠ 0 ∧ mA.fy ≠ 0 ∧
    ((((convert DepthTraitU16 true mA depthA labelA arbCloud).points 1 2).x = .nan ∧
      ((convert DepthTraitU16 true mA depthA labelA arbCloud).points 1 2).y = .nan ∧
      ((convert DepthTraitU16 true mA depthA labelA arbCloud).points 1 2).z = .nan ∨
      ∃ a b c : Q,
        ((convert DepthTraitU16 true mA depthA labelA arbCloud).points 1 2).x = .fin a ∧
        ((convert DepthTraitU16 true mA depthA labelA arbCloud).points 1 2).y = .fin b ∧
        ((convert DepthTraitU16 true mA depthA labelA arbCloud).points 1 2).z = .fin c) ∧
     ((convert DepthTraitU16 true mA depthA labelA arbCloud).points 1 2).label
        = toU32 (labelA.data 1 2)) :=
  ⟨by norm_num [mA, fromCameraInfo, infoA], by norm_num [mA, fromCameraInfo, infoA],
   convert_geometry_all_or_nothing DepthTraitU16 true mA depthA labelA arbCloud 1 2
     (by norm_num [mA, fromCameraInfo, infoA]) (by norm_num [mA, fromCameraInfo, infoA])⟩

/-- The disjunctive guard of line 207 is true for every encoding value:
no string can equal both `"32SC1"` and `"8UC1"`. -/
theorem guard_always_true (e : String) :
    e ≠ enc.TYPE_32SC1 ∨ e ≠ enc.TYPE_8UC1 := by
  by_cases h : e = enc.TYPE_32SC1
  · right
    rw [h]
    decide
  · left
    exact h

/-- Consequently the normalization step always calls `toCvCopy`. -/
theorem normalizeLabel_eq_copy (img : Image Int) :
    normalizeLabel img = toCvCopy32SC1 img := by
  unfold normalizeLabel
  rw [if_pos (guard_always_true img.encoding)]

/-- A successful `rowRange(0, k)` is the first-`k`-rows view and implies the
asserted bound `k ≤ rows`. -/
theorem rowRange0_some (img : Image Int) (k : Nat) (out : Image Int)
    (h : rowRange0 img k = some out) :
    out = { img with height := k } ∧ k ≤ img.height := by
  unfold rowRange0 at h
  by_cases hk : k ≤ img.height
  · rw [if_pos hk] at h
    exact ⟨(Option.some.inj h).symm, hk⟩
  · rw [if_neg hk] at h
    exact absurd h (by simp)

/-- `rowRange(0, k)` succeeds exactly when the asserted bound holds. -/
theorem rowRange0_of_le (img : Image Int) (k : Nat) (hk : k ≤ img.height) :
    rowRange0 img k = some { img with height := k } := by
  unfold rowRange0
  rw [if_pos hk]

/-- A successful resize produces exactly the nearest-neighbor grid. -/
theorem cvResizeNN_some (src : Image Int) (dstW dstH : Nat) (out : Image Int)
    (h : cvResizeNN src dstW dstH = some out) :
    out = cvResizeNNData src dstW dstH := by
  unfold cvResizeNN at h
  by_cases hg : src.height = 0 ∨ src.width = 0 ∨ dstW = 0 ∨ dstH = 0
  · rw [if_pos hg] at h
    exact absurd h (by simp)
  · rw [if_neg hg] at h
    exact (Option.some.inj h).symm

/-- The resize succeeds on non-empty source and destination areas. -/
theorem cvResizeNN_of_nonempty (src : Image Int) (dstW dstH : Nat)
    (h1 : src.height ≠ 0) (h2 : src.width ≠ 0) (h3 : dstW ≠ 0) (h4 : dstH ≠ 0) :
    cvResizeNN src dstW dstH = some (cvResizeNNData src dstW dstH) := by
  unfold cvResizeNN
  rw [if_neg (by simp [h1, h2, h3, h4])]

/-- A positive crop bound forces the three dimensions that feed the ratio
arithmetic to be positive (a zero anywhere collapses the rational expression
to 0). -/
theorem keptRows_pos_dims (d : Image Q) (l : Image Int)
    (h : 0 < keptRows d l) :
    0 < d.width ∧ 0 < d.height ∧ 0 < l.width := by
  refine ⟨?_, ?_, ?_⟩
  · by_contra h0
    have hw : d.width = 0 := by omega
    unfold keptRows at h
    rw [hw] at h
    simp at h
  · by_contra h0
    have hh : d.height = 0 := by omega
    unfold keptRows at h
    rw [hh] at h
    simp at h
  · by_contra h0
    have hw : l.width = 0 := by omega
    unfold keptRows at h
    rw [hw] at h
    simp at h

/-- A label image that survives reconciliation keeps its encoding tag. -/
theorem reconcile_some_encoding (d : Image Q) (l : Image Int) (i : CameraInfo)
    (out : Image Int) (h : (reconcile d l i).2 = some out) :
    out.encoding = l.encoding := by
  unfold reconcile at h
  by_cases hne : d.width ≠ l.width ∨ d.height ≠ l.height
  · rw [if_pos hne] at h
    rcases hr : rowRange0 l (keptRows d l) with _ | cropped
    · rw [hr] at h
      simp at h
    · rw [hr] at h
      simp only at h
      rcases hv : cvResizeNN cropped d.width d.height with _ | resized
      · rw [hv] at h
        simp at h
      · rw [hv] at h
        simp only at h
        rw [← Option.some.inj h, cvResizeNN_some cropped d.width d.height resized hv,
            (rowRange0_some l (keptRows d l) cropped hr).1]
        rfl
  · rw [if_neg hne] at h
    rw [← Option.some.inj h]

/-- The height-ratio-mismatch triple: the crop bound `⌊6/1⌋ = 6` exceeds the
3 label rows, so the `rowRange` assert fires outside the `try` block and
reconciliation produces no label image. -/
theorem reconcileC_fails : (reconcile depthC labelC infoA).2 = none := by
  have h1 : ((depthC.height : Q) / ((depthC.width : Q) / (labelC.width : Q)))
      = ((6 : Int) : Q) := by
    norm_num [depthC, labelC]
  have hk : keptRows depthC labelC = 6 := by
    unfold keptRows
    rw [h1, Int.floor_intCast]
    rfl
  have hr : rowRange0 labelC (keptRows depthC labelC) = none := by
    rw [hk]
    unfold rowRange0
    rw [if_neg (by decide)]
  unfold reconcile
  rw [if_pos (Or.inr (by decide)), hr]

/-- Characterization of a successful normalization. -/
theorem normalizeLabel_some_iff (img out : Image Int) :
    normalizeLabel img = some out ↔
      (normalizableEncoding img.encoding = true ∧ out = retag32SC1 img) := by
  rw [normalizeLabel_eq_copy]
  unfold toCvCopy32SC1
  cases hb : normalizableEncoding img.encoding
  · simp
  · simp [eq_comm]

/--
C5 counterexample: a matched triple whose depth and label dimensions differ
(depth 4×6, label 4×3, equal widths so `ratio = 1`) on which the reconciler
does *not* produce a `(Wd, Hd)` resample: the crop bound `⌊Hd/ratio⌋ = 6`
exceeds the 3 label rows, the `rowRange` assert throws outside the `try`
block, and no label image is produced at all.
-/
theorem reconcile_rescale_counterexample :
    (depthC.width ≠ labelC.width ∨ depthC.height ≠ labelC.height) ∧
    (reconcile depthC labelC infoA).2 = none :=
  ⟨Or.inr (by decide), reconcileC_fails⟩

/--
C5 (amended): when the depth and label dimensions differ *and* the computed
crop bound `⌊Hd/ratio⌋` is positive and at most the label height (so the
OpenCV asserts outside the `try` block do not throw), the reconciler
computes `ratio = Wd / Wl` from the widths only, rescales `fx, fy, cx, cy`
(the `P[0], P[5], P[2], P[6]` entries read by the camera model) each by
`ratio`, crops the label image's usable row range to `⌊Hd / ratio⌋` rows,
and resamples that cropped image with nearest-neighbor interpolation to
exactly `(Wd, Hd)`.
-/
theorem reconcile_rescales_by_width_ratio (d : Image Q) (l : Image Int)
    (i : CameraInfo)
    (hne : d.width ≠ l.width ∨ d.height ≠ l.height)
    (hpos : 0 < keptRows d l) (hle : keptRows d l ≤ l.height) :
    reconcile d l i =
      ({ fx := i.P0 * ((d.width : Q) / (l.width : Q))
         fy := i.P5 * ((d.width : Q) / (l.width : Q))
         cx := i.P2 * ((d.width : Q) / (l.width : Q))
         cy := i.P6 * ((d.width : Q) / (l.width : Q)) },
       some (cvResizeNNData { l with height := keptRows d l }
         d.width d.height)) ∧
    (cvResizeNNData { l with height := keptRows d l } d.width d.height).width
        = d.width ∧
    (cvResizeNNData { l with height := keptRows d l } d.width d.height).height
        = d.height := by
  obtain ⟨hdw, hdh, hlw⟩ := keptRows_pos_dims d l hpos
  have h1 : rowRange0 l (keptRows d l) = some { l with height := keptRows d l } :=
    rowRange0_of_le l (keptRows d l) hle
  have h2 : cvResizeNN { l with height := keptRows d l } d.width d.height =
      some (cvResizeNNData { l with height := keptRows d l } d.width d.height) :=
    cvResizeNN_of_nonempty _ _ _ (Nat.pos_iff_ne_zero.mp hpos)
      (Nat.pos_iff_ne_zero.mp hlw) (Nat.pos_iff_ne_zero.mp hdw)
      (Nat.pos_iff_ne_zero.mp hdh)
  refine ⟨?_, rfl, rfl⟩
  unfold reconcile
  rw [if_pos hne]
  simp only [h1, h2]
  rfl

/-- The crop bound of the mismatched `depthB`/`labelB` pair: `⌊2/2⌋ = 1`. -/
theorem keptRows_depthB_labelB : keptRows depthB labelB = 1 := by
  have h1 : ((depthB.height : Q) / ((depthB.width : Q) / (labelB.width : Q)))
      = ((1 : Int) : Q) := by
    norm_num [depthB, labelB]
  unfold keptRows
  rw [h1, Int.floor_intCast]
  rfl

/--
C5 witness: depth 4×2 against label 2×1 — ratio 2, crop bound 1 within the
1 source row, output grid 4×2.
-/
theorem reconcile_rescales_by_width_ratio_witness :
    (depthB.width ≠ labelB.width ∨ depthB.height ≠ labelB.height) ∧
    0 < keptRows depthB labelB ∧ keptRows depthB labelB ≤ labelB.height ∧
    (reconcile depthB labelB infoA =
      ({ fx := infoA.P0 * ((depthB.width : Q) / (labelB.width : Q))
         fy := infoA.P5 * ((depthB.width : Q) / (labelB.width : Q))
         cx := infoA.P2 * ((depthB.width : Q) / (labelB.width : Q))
         cy := infoA.P6 * ((depthB.width : Q) / (labelB.width : Q)) },
       some (cvResizeNNData { labelB with height := keptRows depthB labelB }
         depthB.width depthB.height)) ∧
     (cvResizeNNData { labelB with height := keptRows depthB labelB }
         depthB.width depthB.height).width = depthB.width ∧
     (cvResizeNNData { labelB with height := keptRows depthB labelB }
         depthB.width depthB.height).height = depthB.height) :=
  ⟨Or.inl (by decide),
   by rw [keptRows_depthB_labelB]; decide,
   by rw [keptRows_depthB_labelB]; decide,
   reconcile_rescales_by_width_ratio depthB labelB infoA (Or.inl (by decide))
     (by rw [keptRows_depthB_labelB]; decide)
     (by rw [keptRows_depthB_labelB]; decide)⟩

/--
C6: when depth and label dimensions already agree, the reconciler is the
identity — the label image passes through unchanged (no resampling) and the
camera model is taken from the unscaled camera info.
-/
theorem reconcile_identity_on_equal_dims (d : Image Q) (l : Image Int)
    (i : CameraInfo) (hw : d.width = l.width) (hh : d.height = l.height) :
    reconcile d l i = (fromCameraInfo i, some l) := by
  unfold reconcile
  rw [if_neg (by simp [hw, hh])]

/--
C6 witness: the equal-resolution Scenario A triple passes through untouched.
-/
theorem reconcile_identity_on_equal_dims_witness :
    depthA.width = labelA.width ∧ depthA.height = labelA.height ∧
    reconcile depthA labelA infoA = (fromCameraInfo infoA, some labelA) :=
  ⟨rfl, rfl, reconcile_identity_on_equal_dims depthA labelA infoA rfl rfl⟩

/--
C4 (evaluation of the code at the failing input): a label image whose
encoding is already the supported `8UC1` is not passed through unchanged;
the always-true guard of line 207 routes it through `toCvCopy`, which
retags it `32SC1` — contradicting the spec's pass-through contract for
already-supported formats.
-/
theorem normalizeLabel_converts_supported_8UC1 :
    label8A.encoding = enc.TYPE_8UC1 ∧
    normalizeLabel label8A = some (retag32SC1 label8A) ∧
    (retag32SC1 label8A).encoding = enc.TYPE_32SC1 ∧
    (retag32SC1 label8A).encoding ≠ label8A.encoding :=
  ⟨rfl, rfl, rfl, by decide⟩

/--
C10: the per-triple processing is history-free — the published cloud does
not depend on the `model_` state left behind by earlier callbacks, because
the camera model is re-derived from the triple's own camera info before
every use. Two invocations on the same triple from any two prior states
produce identical output.
-/
theorem imageCb_history_free (s1 s2 : Intrinsics) (dm : Image Q)
    (lm : Image Int) (im : CameraInfo) :
    (imageCbSt s1 dm lm im).2 = (imageCbSt s2 dm lm im).2 := by
  unfold imageCbSt
  split <;> rfl

/-- Anatomy of every published cloud: publishing requires matching frame
ids, a successful reconciliation, and a normalizable label encoding, and the
cloud comes from one of the two reachable `convert` instantiations (both
with the `32SC1`-retagged, signed-label image). -/
theorem imageCbSt_published (m0 : Intrinsics) (dm : Image Q) (lm : Image Int)
    (im : CameraInfo) (c : PointCloud)
    (h : (imageCbSt m0 dm lm im).2 = some c) :
    dm.header.frame_id = lm.header.frame_id ∧
    normalizableEncoding lm.encoding = true ∧
    ∃ lbl, (reconcile dm lm im).2 = some lbl ∧
      ((dm.encoding = enc.TYPE_16UC1 ∧
        c = convert DepthTraitU16 true (reconcile dm lm im).1 dm
              (retag32SC1 lbl) (allocCloud dm)) ∨
       (dm.encoding = enc.TYPE_32FC1 ∧
        c = convert DepthTraitF32 true (reconcile dm lm im).1 dm
              (retag32SC1 lbl) (allocCloud dm))) := by
  unfold imageCbSt at h
  by_cases hf : dm.header.frame_id = lm.header.frame_id
  · rw [if_neg (not_ne_iff.mpr hf)] at h
    rcases hrec : (reconcile dm lm im).2 with _ | lbl
    · rw [hrec] at h
      simp at h
    · rw [hrec] at h
      simp only at h
      rcases hn : normalizeLabel lbl with _ | lbl2
      · rw [hn] at h
        simp at h
      · rw [hn] at h
        obtain ⟨henc, hout⟩ := (normalizeLabel_some_iff _ _).mp hn
        rw [reconcile_some_encoding dm lm im lbl hrec] at henc
        refine ⟨hf, henc, lbl, rfl, ?_⟩
        subst hout
        simp only at h
        by_cases h16 : dm.encoding = enc.TYPE_16UC1
        · rw [if_pos ⟨h16, rfl⟩] at h
          simp only at h
          exact Or.inl ⟨h16, (Option.some.inj h).symm⟩
        · rw [if_neg (fun hc => h16 hc.1)] at h
          rw [if_neg (fun hc => by
            have := hc.2
            simp [retag32SC1, enc.TYPE_32SC1, enc.MONO8] at this)] at h
          by_cases h32 : dm.encoding = enc.TYPE_32FC1
          · rw [if_pos ⟨h32, rfl⟩] at h
            simp only at h
            exact Or.inr ⟨h32, (Option.some.inj h).symm⟩
          · rw [if_neg (fun hc => h32 hc.1)] at h
            rw [if_neg (fun hc => by
              have := hc.2
              simp [retag32SC1, enc.TYPE_32SC1, enc.MONO8] at this)] at h
            simp at h
  · rw [if_pos hf] at h
    simp at h

/-- Converse: matching frames, a surviving reconciliation, a normalizable
label encoding and a supported depth encoding guarantee a published cloud. -/
theorem imageCbSt_publishes (m0 : Intrinsics) (dm : Image Q) (lm : Image Int)
    (im : CameraInfo) (lbl : Image Int)
    (hf : dm.header.frame_id = lm.header.frame_id)
    (hrec : (reconcile dm lm im).2 = some lbl)
    (he : normalizableEncoding lm.encoding = true)
    (hd : dm.encoding = enc.TYPE_16UC1 ∨ dm.encoding = enc.TYPE_32FC1) :
    ∃ c, (imageCbSt m0 dm lm im).2 = some c := by
  unfold imageCbSt
  rw [if_neg (not_ne_iff.mpr hf), hrec]
  have hn : normalizeLabel lbl = some (retag32SC1 lbl) :=
    (normalizeLabel_some_iff _ _).mpr
      ⟨by rw [reconcile_some_encoding dm lm im lbl hrec]; exact he, rfl⟩
  simp only [hn]
  rcases hd with h16 | h32
  · rw [if_pos ⟨h16, rfl⟩]
    exact ⟨_, rfl⟩
  · rw [if_neg (fun hc => by rw [h32] at hc; exact absurd hc.1 (by decide))]
    rw [if_neg (fun hc => by rw [h32] at hc; exact absurd hc.1 (by decide))]
    rw [if_pos ⟨h32, rfl⟩]
    exact ⟨_, rfl⟩

/--
C7 counterexample: the claim "a cloud is published iff the frames match, the
depth encoding is supported and the label encoding normalizes" is false of
the code: the 4×6-depth / 4×3-label triple satisfies all three conditions,
yet the `rowRange` assert of line 195 throws a `cv::Exception` outside the
`try` block (spec §7 ConversionFailure) and nothing is published.
-/
theorem publishes_iff_counterexample :
    depthC.header.frame_id = labelC.header.frame_id ∧
    normalizableEncoding labelC.encoding = true ∧
    depthC.encoding = enc.TYPE_16UC1 ∧
    imageCb depthC labelC infoA = none := by
  refine ⟨rfl, rfl, rfl, ?_⟩
  unfold imageCb imageCbSt
  rw [if_neg (by decide), reconcileC_fails]

/--
C7 (amended): a point cloud is published for a matched triple if and only if
no error occurs — the depth and label coordinate frames agree, the
resolution reconciliation survives its OpenCV asserts, the label encoding
can be normalized, and the depth encoding is one of 16UC1/32FC1. On any
error the callback returns (or aborts on the uncaught reconciliation
exception) without publishing anything.
-/
theorem publishes_iff_no_error (dm : Image Q) (lm : Image Int)
    (im : CameraInfo) :
    (∃ c, imageCb dm lm im = some c) ↔
      (dm.header.frame_id = lm.header.frame_id ∧
       (∃ lbl, (reconcile dm lm im).2 = some lbl) ∧
       normalizableEncoding lm.encoding = true ∧
       (dm.encoding = enc.TYPE_16UC1 ∨ dm.encoding = enc.TYPE_32FC1)) := by
  constructor
  · rintro ⟨c, hc⟩
    have h := imageCbSt_published { fx := 0, fy := 0, cx := 0, cy := 0 } dm lm im c hc
    obtain ⟨lbl, hrec, hdisp⟩ := h.2.2
    exact ⟨h.1, ⟨lbl, hrec⟩, h.2.1,
      hdisp.elim (fun x => Or.inl x.1) (fun x => Or.inr x.1)⟩
  · rintro ⟨hf, ⟨lbl, hrec⟩, he, hd⟩
    exact imageCbSt_publishes _ dm lm im lbl hf hrec he hd

/--
C7 witness: the Scenario A triple commits no error and is published; a
triple with mismatched frame ids is dropped.
-/
theorem publishes_iff_no_error_witness :
    (∃ c, imageCb depthA labelA infoA = some c) ∧
    ¬ (∃ c, imageCb depthBad labelA infoA = some c) :=
  ⟨(publishes_iff_no_error depthA labelA infoA).mpr
     ⟨rfl, ⟨labelA, rfl⟩, rfl, Or.inl rfl⟩,
   fun hex =>
     absurd ((publishes_iff_no_error depthBad labelA infoA).mp hex).1
       (by decide)⟩

/--
C3: every published cloud has the depth image's width and height (never the
label image's original dimensions), the fixed 4-field x/y/z/label schema,
`is_dense = false`, and a header (timestamp and frame id) copied from the
depth input.
-/
theorem cloud_shape_from_depth (dm : Image Q) (lm : Image Int)
    (im : CameraInfo) (c : PointCloud) (h : imageCb dm lm im = some c) :
    c.width = dm.width ∧ c.height = dm.height ∧ c.fields = xyzlFields ∧
    c.is_dense = false ∧ c.header = dm.header := by
  have hp := imageCbSt_published { fx := 0, fy := 0, cx := 0, cy := 0 }
    dm lm im c h
  obtain ⟨lbl, _, hdisp⟩ := hp.2.2
  rcases hdisp with ⟨_, hc⟩ | ⟨_, hc⟩ <;> subst hc <;>
    exact ⟨rfl, rfl, rfl, rfl, rfl⟩

/--
C3 witness: the Scenario A cloud takes its 4×3 grid and its header from the
depth input; the label input's header (a different stamp) is not used.
-/
theorem cloud_shape_from_depth_witness :
    imageCb depthA labelA infoA = some cloudA ∧
    (cloudA.width = depthA.width ∧ cloudA.height = depthA.height ∧
     cloudA.fields = xyzlFields ∧ cloudA.is_dense = false ∧
     cloudA.header = depthA.header) ∧
    cloudA.header ≠ labelA.header :=
  ⟨rfl, cloud_shape_from_depth depthA labelA infoA cloudA rfl, by decide⟩

/--
C9: the guard `encoding != 32SC1 || encoding != 8UC1` of line 207 is true
for every encoding, so every label image — including those already in a
supported format — is sent through the `32SC1` conversion; the label image
handed to `convert` is always `32SC1`-tagged, making the two `mono8`
dispatch branches unreachable: every published cloud comes from one of the
two signed-label `convert` instantiations.
-/
theorem label_normalization_always_converts (img : Image Int) :
    (img.encoding ≠ enc.TYPE_32SC1 ∨ img.encoding ≠ enc.TYPE_8UC1) ∧
    normalizeLabel img = toCvCopy32SC1 img ∧
    (∀ out, normalizeLabel img = some out → out.encoding = enc.TYPE_32SC1) ∧
    (∀ (m0 : Intrinsics) (dm : Image Q) (lm : Image Int) (im : CameraInfo)
        (c : PointCloud), (imageCbSt m0 dm lm im).2 = some c →
        ∃ lbl, (reconcile dm lm im).2 = some lbl ∧
          ((dm.encoding = enc.TYPE_16UC1 ∧
            c = convert DepthTraitU16 true (reconcile dm lm im).1 dm
                  (retag32SC1 lbl) (allocCloud dm)) ∨
           (dm.encoding = enc.TYPE_32FC1 ∧
            c = convert DepthTraitF32 true (reconcile dm lm im).1 dm
                  (retag32SC1 lbl) (allocCloud dm)))) := by
  refine ⟨guard_always_true img.encoding, normalizeLabel_eq_copy img, ?_, ?_⟩
  · intro out h
    rw [((normalizeLabel_some_iff img out).mp h).2]
    rfl
  · intro m0 dm lm im c h
    exact (imageCbSt_published m0 dm lm im c h).2.2

/--
C9 witness: even the already-supported `32SC1` label of Scenario A is routed
through the conversion, and the published Scenario A cloud is produced by
the signed-label 16UC1/32SC1 instantiation of `convert`.
-/
theorem label_normalization_always_converts_witness :
    normalizeLabel labelA = toCvCopy32SC1 labelA ∧
    (retag32SC1 labelA).encoding = enc.TYPE_32SC1 ∧
    (∃ lbl, (reconcile depthA labelA infoA).2 = some lbl ∧
      ((depthA.encoding = enc.TYPE_16UC1 ∧
        cloudA = convert DepthTraitU16 true (reconcile depthA labelA infoA).1
              depthA (retag32SC1 lbl) (allocCloud depthA)) ∨
       (depthA.encoding = enc.TYPE_32FC1 ∧
        cloudA = convert DepthTraitF32 true (reconcile depthA labelA infoA).1
              depthA (retag32SC1 lbl) (allocCloud depthA)))) :=
  ⟨(label_normalization_always_converts labelA).2.1,
   (label_normalization_always_converts labelA).2.2.1 (retag32SC1 labelA) rfl,
   (label_normalization_always_converts labelA).2.2.2
     { fx := 0, fy := 0, cx := 0, cy := 0 } depthA labelA infoA cloudA rfl⟩

end DepthImageProc
